import Mathlib

/-!
Shallow embedding of the synthetic-cohort generator in
`medical_data_integration.py` (class `CD44DataProcessor`): the covariate
sampler `create_structured_dataset` (lines 97-137), the outcome generator
`generate_clinical_outcomes` (lines 139-198), the summary counts behind
`print_summary_statistics` (lines 206-231) and the exporter
`save_for_r_analysis` (lines 233-263).

Randomness is abstracted as the values the seeded numpy generator produces:
a `RandomSource` records, per patient index, the value of every sampling
call the script makes.  `np.random.seed(42)` makes each of those values a
deterministic function of the hard-coded seed, so the generated table is a
deterministic function of the `RandomSource`.  Binary 0/1 covariates are
modelled as `Bool` (`true` for 1); continuous draws are rationals.
-/

namespace MedicalData

/-- Immutable covariate snapshot of one simulated patient: the columns built
in `create_structured_dataset` (lines 106-129). -/
structure Patient where
  patient_ID : String
  institute : ℕ
  age : ℚ
  gender : Bool
  cd44_Expression : Bool
  hpv16_Status : Bool
  location : ℕ
  uicc_Stage : ℕ
  tumor_Grade : ℕ
  radiation_Dose : ℚ
  treatment_Time : ℚ
  follow_Up_Time : ℚ
  deriving DecidableEq

/-- Per-endpoint result: the 0/1 event indicator column
(`Local_Recurrence`, `Distant_Metastasis`, `Death`) and the matching time
column (`LRR_Time`, `Metastasis_Time`, `Death_Time`). -/
structure EndpointOutcome where
  indicator : Bool
  time : ℚ
  deriving DecidableEq

/-- The three endpoint outcomes generated for one patient. -/
structure Outcomes where
  local_Recurrence : EndpointOutcome
  distant_Metastasis : EndpointOutcome
  death : EndpointOutcome
  deriving DecidableEq

/-- The random draws `generate_clinical_outcomes` consumes for one patient:
one `np.random.random()` uniform per endpoint loop and one
`np.random.exponential(...)` draw per endpoint (the latter only consumed
when the event fires; recording it unconditionally is harmless because the
code never reads it otherwise). -/
structure PatientRand where
  uLR : ℚ
  uMet : ℚ
  uDeath : ℚ
  eLR : ℚ
  eMet : ℚ
  eDeath : ℚ
  deriving DecidableEq

/-- CD44 hazard multiplier (lines 162-165): 1.8 when CD44-positive. -/
def cd44_effect (cd44 : Bool) : ℚ := if cd44 then 18/10 else 1

/-- HPV16 hazard multiplier (lines 168-171): protective 0.4 when positive. -/
def hpv_effect (hpv : Bool) : ℚ := if hpv then 4/10 else 1

/-- Local-recurrence combined risk (lines 159-175): baseline 0.15 times the
two effects, capped at 0.6 by `min(combined_risk, 0.6)`. -/
def lr_combined_risk (cd44 hpv : Bool) : ℚ :=
  min (15/100 * cd44_effect cd44 * hpv_effect hpv) (6/10)

/-- Distant-metastasis risk (line 186): `0.12 * (1.5 if CD44+ else 1.0)`.
The source applies no cap to this product. -/
def met_risk (cd44 : Bool) : ℚ := 12/100 * (if cd44 then 15/10 else 1)

/-- Death risk (line 194):
`0.25 * (1.3 if CD44+ else 1.0) * (0.6 if HPV+ else 1.0)`.
The source applies no cap to this product. -/
def death_risk (cd44 hpv : Bool) : ℚ :=
  25/100 * (if cd44 then 13/10 else 1) * (if hpv then 6/10 else 1)

/-- One patient's slice of `generate_clinical_outcomes` (lines 139-198).
Each indicator starts at 0 with its time initialised to `Follow_Up_Time`
(lines 144-149); when the uniform draw falls below the endpoint risk the
indicator is set to 1 and the time becomes the latent draw, afterwards
clamped by `min(..., Follow_Up_Time)` (lines 178-182, 187-190, 195-198).
Only local recurrence multiplies its exponential(18) draw by
`1/combined_risk` (line 181); metastasis and death use exponential(24) and
exponential(36) draws unscaled (lines 189, 197).  The indicator is never
reset when the latent time exceeds the follow-up: the source only clamps
the time. -/
def generate_clinical_outcomes (p : Patient) (r : PatientRand) : Outcomes :=
  { local_Recurrence :=
      if r.uLR < lr_combined_risk p.cd44_Expression p.hpv16_Status then
        { indicator := true
          time := min (r.eLR * (1 / lr_combined_risk p.cd44_Expression p.hpv16_Status))
                      p.follow_Up_Time }
      else
        { indicator := false, time := p.follow_Up_Time }
    distant_Metastasis :=
      if r.uMet < met_risk p.cd44_Expression then
        { indicator := true, time := min r.eMet p.follow_Up_Time }
      else
        { indicator := false, time := p.follow_Up_Time }
    death :=
      if r.uDeath < death_risk p.cd44_Expression p.hpv16_Status then
        { indicator := true, time := min r.eDeath p.follow_Up_Time }
      else
        { indicator := false, time := p.follow_Up_Time } }

/-- Cohort size, hard-coded at line 103 (`n_patients = 195`). -/
def n_patients : ℕ := 195

/-- The seed, hard-coded at line 102 (`np.random.seed(42)`). -/
def numpy_seed : ℕ := 42

/-- The eight participating institutes (line 108). -/
def institutes : List String := ["BER", "FFM", "DD", "TUM", "TÜ", "EU", "FB", "HD"]

/-- The seeded numpy stream, abstracted as the per-patient value of every
sampling call in `create_structured_dataset` and
`generate_clinical_outcomes`.  Categorical `np.random.choice` calls are
recorded as the chosen index, binary ones as `Bool`. -/
@[ext]
structure RandomSource where
  institute : ℕ → ℕ
  age : ℕ → ℚ
  gender : ℕ → Bool
  cd44 : ℕ → Bool
  hpv16 : ℕ → Bool
  location : ℕ → ℕ
  uicc : ℕ → ℕ
  grade : ℕ → ℕ
  dose : ℕ → ℚ
  ttime : ℕ → ℚ
  followUp : ℕ → ℚ
  uLR : ℕ → ℚ
  uMet : ℕ → ℚ
  uDeath : ℕ → ℚ
  eLR : ℕ → ℚ
  eMet : ℕ → ℚ
  eDeath : ℕ → ℚ

/-- Python `f"{i:03d}"` zero padding (every index used here is below 1000). -/
def format03d (n : ℕ) : String :=
  if n < 10 then "00" ++ toString n
  else if n < 100 then "0" ++ toString n
  else toString n

/-- Patient identifier (line 107): `f"DKTK_{i:03d}"` for `i` in 1..195. -/
def patient_id (i : ℕ) : String := "DKTK_" ++ format03d i

/-- Row `i` (0-based) of the covariate table of `create_structured_dataset`
(lines 106-129): the identifier and one draw per column, including the
single `Follow_Up_Time` exponential(45) draw of line 128.  Categorical
draws land in their value sets via the recorded index (`UICC` in {2,3,4},
`Grade` in {1,2,3}, `Location` in {0,1,2}, institute among the eight). -/
def mk_patient (s : RandomSource) (i : ℕ) : Patient :=
  { patient_ID := patient_id (i + 1)
    institute := s.institute i % 8
    age := s.age i
    gender := s.gender i
    cd44_Expression := s.cd44 i
    hpv16_Status := s.hpv16 i
    location := s.location i % 3
    uicc_Stage := 2 + s.uicc i % 3
    tumor_Grade := 1 + s.grade i % 3
    radiation_Dose := s.dose i
    treatment_Time := s.ttime i
    follow_Up_Time := s.followUp i }

/-- `create_structured_dataset` (lines 97-137): the 195 covariate rows. -/
def create_structured_dataset (s : RandomSource) : List Patient :=
  (List.range n_patients).map (mk_patient s)

/-- The draws consumed for patient `i` by the three outcome loops. -/
def patient_rand (s : RandomSource) (i : ℕ) : PatientRand :=
  { uLR := s.uLR i, uMet := s.uMet i, uDeath := s.uDeath i
    eLR := s.eLR i, eMet := s.eMet i, eDeath := s.eDeath i }

/-- The full generated table: every patient row paired with the three
endpoint outcomes `generate_clinical_outcomes` adds to it. -/
def cohort_outcomes (s : RandomSource) : List (Patient × Outcomes) :=
  (List.range n_patients).map fun i =>
    (mk_patient s i, generate_clinical_outcomes (mk_patient s i) (patient_rand s i))

/-- One exported row of `save_for_r_analysis` (lines 233-263): the same
values under the renamed columns (`Follow_Up_Time → Zeit`,
`Local_Recurrence → LokoRegionaleKontrolle`, `Distant_Metastasis →
FernMetastasenFrei`, `Death → GesamtUeberleben`, `Age → Alter`,
`Gender → Geschlecht`, `UICC_Stage → TumorStadium`,
`HPV16_Status → HPV16_DNA_Status`) plus the constant `Behandlungsart`. -/
structure RRow where
  patient_ID : String
  institute : ℕ
  alter : ℚ
  geschlecht : Bool
  cd44_Expression : Bool
  hpv16_DNA_Status : Bool
  location : ℕ
  tumorStadium : ℕ
  tumor_Grade : ℕ
  radiation_Dose : ℚ
  treatment_Time : ℚ
  zeit : ℚ
  lokoRegionaleKontrolle : Bool
  lrr_Time : ℚ
  fernMetastasenFrei : Bool
  metastasis_Time : ℚ
  gesamtUeberleben : Bool
  death_Time : ℚ
  behandlungsart : String
  deriving DecidableEq

/-- The column-rename step of `save_for_r_analysis`: values carried over
unchanged, only field names change; one constant column is added. -/
def export_row (po : Patient × Outcomes) : RRow :=
  { patient_ID := po.1.patient_ID
    institute := po.1.institute
    alter := po.1.age
    geschlecht := po.1.gender
    cd44_Expression := po.1.cd44_Expression
    hpv16_DNA_Status := po.1.hpv16_Status
    location := po.1.location
    tumorStadium := po.1.uicc_Stage
    tumor_Grade := po.1.tumor_Grade
    radiation_Dose := po.1.radiation_Dose
    treatment_Time := po.1.treatment_Time
    zeit := po.1.follow_Up_Time
    lokoRegionaleKontrolle := po.2.local_Recurrence.indicator
    lrr_Time := po.2.local_Recurrence.time
    fernMetastasenFrei := po.2.distant_Metastasis.indicator
    metastasis_Time := po.2.distant_Metastasis.time
    gesamtUeberleben := po.2.death.indicator
    death_Time := po.2.death.time
    behandlungsart := "Radiochemotherapie" }

/-- `save_for_r_analysis` (lines 233-263): the exported flat table. -/
def save_for_r_analysis (s : RandomSource) : List RRow :=
  (cohort_outcomes s).map export_row

/-- The cohort-level counts behind `print_summary_statistics`
(lines 206-231); the printed rates, percentages and medians are derived
from these frozen columns. -/
structure SummaryStats where
  total : ℕ
  cd44_pos : ℕ
  hpv_pos : ℕ
  male : ℕ
  lr_events : ℕ
  met_events : ℕ
  deaths : ℕ
  deriving DecidableEq

/-- Summary counts of the generated table. -/
def summary_statistics (s : RandomSource) : SummaryStats :=
  { total := (cohort_outcomes s).length
    cd44_pos := ((cohort_outcomes s).filter fun po => po.1.cd44_Expression).length
    hpv_pos := ((cohort_outcomes s).filter fun po => po.1.hpv16_Status).length
    male := ((cohort_outcomes s).filter fun po => !po.1.gender).length
    lr_events := ((cohort_outcomes s).filter fun po => po.2.local_Recurrence.indicator).length
    met_events := ((cohort_outcomes s).filter fun po => po.2.distant_Metastasis.indicator).length
    deaths := ((cohort_outcomes s).filter fun po => po.2.death.indicator).length }

/-- Pointwise agreement of two abstract numpy streams. -/
def RandomSource.agrees (s t : RandomSource) : Prop :=
  (∀ i, s.institute i = t.institute i) ∧ (∀ i, s.age i = t.age i) ∧
  (∀ i, s.gender i = t.gender i) ∧ (∀ i, s.cd44 i = t.cd44 i) ∧
  (∀ i, s.hpv16 i = t.hpv16 i) ∧ (∀ i, s.location i = t.location i) ∧
  (∀ i, s.uicc i = t.uicc i) ∧ (∀ i, s.grade i = t.grade i) ∧
  (∀ i, s.dose i = t.dose i) ∧ (∀ i, s.ttime i = t.ttime i) ∧
  (∀ i, s.followUp i = t.followUp i) ∧ (∀ i, s.uLR i = t.uLR i) ∧
  (∀ i, s.uMet i = t.uMet i) ∧ (∀ i, s.uDeath i = t.uDeath i) ∧
  (∀ i, s.eLR i = t.eLR i) ∧ (∀ i, s.eMet i = t.eMet i) ∧
  (∀ i, s.eDeath i = t.eDeath i)

/-- A concrete stream used to instantiate the theorems: every uniform draw
is 1 (so no event fires) and every follow-up is 10. -/
def sConst : RandomSource :=
  { institute := fun _ => 0, age := fun _ => 58, gender := fun _ => false
    cd44 := fun _ => false, hpv16 := fun _ => false, location := fun _ => 0
    uicc := fun _ => 0, grade := fun _ => 0, dose := fun _ => 64
    ttime := fun _ => 44, followUp := fun _ => 10, uLR := fun _ => 1
    uMet := fun _ => 1, uDeath := fun _ => 1, eLR := fun _ => 0
    eMet := fun _ => 0, eDeath := fun _ => 0 }

/-- Every endpoint time produced for a patient is at most that patient's
follow-up: it is either the initialisation value `Follow_Up_Time` itself or
a latent draw clamped by `min`. -/
theorem generate_time_le (p : Patient) (r : PatientRand) :
    (generate_clinical_outcomes p r).local_Recurrence.time ≤ p.follow_Up_Time ∧
    (generate_clinical_outcomes p r).distant_Metastasis.time ≤ p.follow_Up_Time ∧
    (generate_clinical_outcomes p r).death.time ≤ p.follow_Up_Time := by
  refine ⟨?_, ?_, ?_⟩ <;>
    · simp only [generate_clinical_outcomes]
      split <;> simp

/-- An endpoint whose indicator stayed 0 keeps its initialisation time,
namely the patient's follow-up. -/
theorem generate_censored_time (p : Patient) (r : PatientRand) :
    ((generate_clinical_outcomes p r).local_Recurrence.indicator = false →
      (generate_clinical_outcomes p r).local_Recurrence.time = p.follow_Up_Time) ∧
    ((generate_clinical_outcomes p r).distant_Metastasis.indicator = false →
      (generate_clinical_outcomes p r).distant_Metastasis.time = p.follow_Up_Time) ∧
    ((generate_clinical_outcomes p r).death.indicator = false →
      (generate_clinical_outcomes p r).death.time = p.follow_Up_Time) := by
  refine ⟨?_, ?_, ?_⟩ <;>
    · simp only [generate_clinical_outcomes]
      split <;> simp

/-- Patient used to exercise the censoring path: CD44-negative,
HPV-negative (local-recurrence risk 0.15), follow-up 10 months. -/
def pC1 : Patient :=
  { patient_ID := "DKTK_001", institute := 0, age := 58, gender := false
    cd44_Expression := false, hpv16_Status := false, location := 0
    uicc_Stage := 2, tumor_Grade := 1, radiation_Dose := 64
    treatment_Time := 44, follow_Up_Time := 10 }

/-- Draws for `pC1`: the local-recurrence uniform 0.1 fires the event and
the exponential(18) draw 3 yields latent time 3/0.15 = 20 > follow-up. -/
def rC1 : PatientRand :=
  { uLR := 1/10, uMet := 1, uDeath := 1, eLR := 3, eMet := 0, eDeath := 0 }

/-- Claim C1: the source keeps the event indicator set while clamping the
time.  At `pC1`/`rC1` the latent local-recurrence time is 20, beyond the
follow-up of 10, yet the generated row has indicator 1 with observed time
10 ≠ 20 — the occurrence is not overridden, only the time is clamped. -/
theorem censoring_override_divergence :
    (generate_clinical_outcomes pC1 rC1).local_Recurrence.indicator = true ∧
    rC1.eLR * (1 / lr_combined_risk pC1.cd44_Expression pC1.hpv16_Status) = 20 ∧
    pC1.follow_Up_Time = 10 ∧
    (generate_clinical_outcomes pC1 rC1).local_Recurrence.time = 10 ∧
    (generate_clinical_outcomes pC1 rC1).local_Recurrence.time ≠
      rC1.eLR * (1 / lr_combined_risk pC1.cd44_Expression pC1.hpv16_Status) := by
  simp only [generate_clinical_outcomes, pC1, rC1]
  norm_num [lr_combined_risk, cd44_effect, hpv_effect, met_risk, death_risk, min_def]

/-- Claim C2: for every covariate combination the three per-endpoint risks
used for the Bernoulli draws are strictly positive and at most 0.6. -/
theorem combined_risk_in_range :
    ∀ (c h : Bool),
      (0 < lr_combined_risk c h ∧ lr_combined_risk c h ≤ 6/10) ∧
      (0 < met_risk c ∧ met_risk c ≤ 6/10) ∧
      (0 < death_risk c h ∧ death_risk c h ≤ 6/10) := by
  intro c h
  cases c <;> cases h <;>
    norm_num [lr_combined_risk, cd44_effect, hpv_effect, met_risk, death_risk, min_def]

/-- Claim C3: in the generated table every endpoint time is at most the
patient's follow-up, and the same bound holds for every row of the exported
flat table (whose `Zeit` column is the follow-up). -/
theorem observed_time_le_follow_up :
    ∀ (s : RandomSource),
      (∀ po ∈ cohort_outcomes s,
        po.2.local_Recurrence.time ≤ po.1.follow_Up_Time ∧
        po.2.distant_Metastasis.time ≤ po.1.follow_Up_Time ∧
        po.2.death.time ≤ po.1.follow_Up_Time) ∧
      (∀ row ∈ save_for_r_analysis s,
        row.lrr_Time ≤ row.zeit ∧ row.metastasis_Time ≤ row.zeit ∧
        row.death_Time ≤ row.zeit) := by
  intro s
  constructor
  · intro po hpo
    obtain ⟨i, _, rfl⟩ := List.mem_map.mp hpo
    exact generate_time_le _ _
  · intro row hrow
    obtain ⟨po, hpo, rfl⟩ := List.mem_map.mp hrow
    obtain ⟨i, _, rfl⟩ := List.mem_map.mp hpo
    exact generate_time_le _ _

/-- Witness for C3 at the first row of the concrete stream `sConst`. -/
theorem observed_time_le_follow_up_witness :
    (mk_patient sConst 0,
        generate_clinical_outcomes (mk_patient sConst 0) (patient_rand sConst 0)) ∈
      cohort_outcomes sConst ∧
    (generate_clinical_outcomes (mk_patient sConst 0) (patient_rand sConst 0)).local_Recurrence.time ≤
      (mk_patient sConst 0).follow_Up_Time := by
  have hmem :
      (mk_patient sConst 0,
          generate_clinical_outcomes (mk_patient sConst 0) (patient_rand sConst 0)) ∈
        cohort_outcomes sConst :=
    List.mem_map.mpr ⟨0, List.mem_range.mpr (by decide), rfl⟩
  exact ⟨hmem, ((observed_time_le_follow_up sConst).1 _ hmem).1⟩

/-- Patient for the C4 counterexample: CD44-negative (metastasis risk
0.12), long follow-up of 1000 months so no clamping interferes. -/
def pC4 : Patient :=
  { patient_ID := "DKTK_001", institute := 0, age := 58, gender := false
    cd44_Expression := false, hpv16_Status := false, location := 0
    uicc_Stage := 2, tumor_Grade := 1, radiation_Dose := 64
    treatment_Time := 44, follow_Up_Time := 1000 }

/-- Draws for `pC4`: the metastasis uniform 0.05 fires the event and the
exponential(24) draw is 24. -/
def rC4 : PatientRand :=
  { uLR := 1, uMet := 1/20, uDeath := 1, eLR := 0, eMet := 24, eDeath := 0 }

/-- Claim C4 counterexample: the generated metastasis time is the raw
exponential(24) draw, 24 — not the risk-scaled `min(24 / 0.12, 1000) = 200`
the claim prescribes for every endpoint. -/
theorem event_time_scaling_counterexample :
    (generate_clinical_outcomes pC4 rC4).distant_Metastasis.indicator = true ∧
    (generate_clinical_outcomes pC4 rC4).distant_Metastasis.time = 24 ∧
    ¬ ((generate_clinical_outcomes pC4 rC4).distant_Metastasis.time =
        min (rC4.eMet * (1 / met_risk pC4.cd44_Expression)) pC4.follow_Up_Time) := by
  simp only [generate_clinical_outcomes, pC4, rC4]
  norm_num [lr_combined_risk, cd44_effect, hpv_effect, met_risk, death_risk, min_def]

/-- Claim C4 as amended: only the local-recurrence event time is the
exponential(18) draw scaled by `1/combined_risk` (then clamped); distant
metastasis and death use their exponential(24) and exponential(36) draws
unscaled by the risk. -/
theorem event_time_scaling_amended :
    ∀ (p : Patient) (r : PatientRand),
      (r.uLR < lr_combined_risk p.cd44_Expression p.hpv16_Status →
        (generate_clinical_outcomes p r).local_Recurrence.time =
          min (r.eLR * (1 / lr_combined_risk p.cd44_Expression p.hpv16_Status))
              p.follow_Up_Time) ∧
      (r.uMet < met_risk p.cd44_Expression →
        (generate_clinical_outcomes p r).distant_Metastasis.time =
          min r.eMet p.follow_Up_Time) ∧
      (r.uDeath < death_risk p.cd44_Expression p.hpv16_Status →
        (generate_clinical_outcomes p r).death.time =
          min r.eDeath p.follow_Up_Time) := by
  intro p r
  refine ⟨fun h => ?_, fun h => ?_, fun h => ?_⟩ <;>
    simp [generate_clinical_outcomes, if_pos h]

/-- Patient/draws instantiating the amended C4 theorem: all three events
fire (uniform draws 0.01 below every risk). -/
def rC4w : PatientRand :=
  { uLR := 1/100, uMet := 1/100, uDeath := 1/100, eLR := 3, eMet := 4, eDeath := 5 }

/-- Witness for the amended C4 at `pC4`/`rC4w`. -/
theorem event_time_scaling_amended_witness :
    rC4w.uMet < met_risk pC4.cd44_Expression ∧
    (generate_clinical_outcomes pC4 rC4w).distant_Metastasis.time =
      min rC4w.eMet pC4.follow_Up_Time := by
  have h : rC4w.uMet < met_risk pC4.cd44_Expression := by
    norm_num [rC4w, pC4, met_risk]
  exact ⟨h, (event_time_scaling_amended pC4 rC4w).2.1 h⟩

/-- Claim C5: patient `i`'s record stores the single follow-up stream draw
`s.followUp i` (line 128, drawn once per patient), and that one scalar is
the censoring bound of all three endpoints: every censored endpoint's time
equals it and every endpoint's time is at most it. -/
theorem follow_up_shared :
    ∀ (s : RandomSource) (i : ℕ),
      (mk_patient s i).follow_Up_Time = s.followUp i ∧
      ((generate_clinical_outcomes (mk_patient s i) (patient_rand s i)).local_Recurrence.indicator = false →
        (generate_clinical_outcomes (mk_patient s i) (patient_rand s i)).local_Recurrence.time = s.followUp i) ∧
      ((generate_clinical_outcomes (mk_patient s i) (patient_rand s i)).distant_Metastasis.indicator = false →
        (generate_clinical_outcomes (mk_patient s i) (patient_rand s i)).distant_Metastasis.time = s.followUp i) ∧
      ((generate_clinical_outcomes (mk_patient s i) (patient_rand s i)).death.indicator = false →
        (generate_clinical_outcomes (mk_patient s i) (patient_rand s i)).death.time = s.followUp i) ∧
      (generate_clinical_outcomes (mk_patient s i) (patient_rand s i)).local_Recurrence.time ≤ s.followUp i ∧
      (generate_clinical_outcomes (mk_patient s i) (patient_rand s i)).distant_Metastasis.time ≤ s.followUp i ∧
      (generate_clinical_outcomes (mk_patient s i) (patient_rand s i)).death.time ≤ s.followUp i := by
  intro s i
  exact ⟨rfl, (generate_censored_time _ _).1, (generate_censored_time _ _).2.1,
    (generate_censored_time _ _).2.2, (generate_time_le _ _).1,
    (generate_time_le _ _).2.1, (generate_time_le _ _).2.2⟩

/-- Witness for C5 at `sConst`, patient 0 (no event fires there, so the
local-recurrence row is censored exactly at the shared follow-up draw). -/
theorem follow_up_shared_witness :
    (generate_clinical_outcomes (mk_patient sConst 0) (patient_rand sConst 0)).local_Recurrence.indicator = false ∧
    (generate_clinical_outcomes (mk_patient sConst 0) (patient_rand sConst 0)).local_Recurrence.time =
      sConst.followUp 0 := by
  have h :
      (generate_clinical_outcomes (mk_patient sConst 0) (patient_rand sConst 0)).local_Recurrence.indicator = false := by
    simp only [generate_clinical_outcomes, mk_patient, patient_rand, sConst]
    norm_num [lr_combined_risk, cd44_effect, hpv_effect, min_def]
  exact ⟨h, (follow_up_shared sConst 0).2.1 h⟩

/-- Claim C6: two runs whose seeded streams produce the same draw values
yield identical generated tables, identical exported tables and identical
summary statistics — generation reads nothing but the stream. -/
theorem generation_deterministic :
    ∀ (s t : RandomSource), s.agrees t →
      cohort_outcomes s = cohort_outcomes t ∧
      save_for_r_analysis s = save_for_r_analysis t ∧
      summary_statistics s = summary_statistics t := by
  intro s t h
  obtain ⟨h1, h2, h3, h4, h5, h6, h7, h8, h9, h10, h11, h12, h13, h14, h15, h16, h17⟩ := h
  have hst : s = t :=
    RandomSource.ext (funext h1) (funext h2) (funext h3) (funext h4) (funext h5)
      (funext h6) (funext h7) (funext h8) (funext h9) (funext h10) (funext h11)
      (funext h12) (funext h13) (funext h14) (funext h15) (funext h16) (funext h17)
  subst hst
  exact ⟨rfl, rfl, rfl⟩

/-- Witness for C6: `sConst` agrees with itself and the theorem yields the
equality of the generated tables. -/
theorem generation_deterministic_witness :
    RandomSource.agrees sConst sConst ∧ cohort_outcomes sConst = cohort_outcomes sConst := by
  have h : RandomSource.agrees sConst sConst :=
    ⟨fun _ => rfl, fun _ => rfl, fun _ => rfl, fun _ => rfl, fun _ => rfl,
     fun _ => rfl, fun _ => rfl, fun _ => rfl, fun _ => rfl, fun _ => rfl,
     fun _ => rfl, fun _ => rfl, fun _ => rfl, fun _ => rfl, fun _ => rfl,
     fun _ => rfl, fun _ => rfl⟩
  exact ⟨h, (generation_deterministic sConst sConst h).1⟩

/-- Patient for the C7 divergence: follow-up exactly 0. -/
def pC7 : Patient :=
  { patient_ID := "DKTK_001", institute := 0, age := 58, gender := false
    cd44_Expression := false, hpv16_Status := false, location := 0
    uicc_Stage := 2, tumor_Grade := 1, radiation_Dose := 64
    treatment_Time := 44, follow_Up_Time := 0 }

/-- Draws for `pC7`: the local-recurrence uniform 0.1 still fires the
Bernoulli event (the draw ignores the follow-up); exponential draw 5. -/
def rC7 : PatientRand :=
  { uLR := 1/10, uMet := 1, uDeath := 1, eLR := 5, eMet := 0, eDeath := 0 }

/-- Claim C7: with follow-up 0 the source still marks the local-recurrence
event as observed — indicator 1 with time clamped to 0 — instead of the
indicator being false as the claim requires. -/
theorem zero_follow_up_divergence :
    pC7.follow_Up_Time = 0 ∧
    (generate_clinical_outcomes pC7 rC7).local_Recurrence.indicator = true ∧
    (generate_clinical_outcomes pC7 rC7).local_Recurrence.time = 0 := by
  simp only [generate_clinical_outcomes, pC7, rC7]
  norm_num [lr_combined_risk, cd44_effect, hpv_effect, met_risk, death_risk, min_def]

/-- Claim C10: every run produces exactly 195 rows whose identifiers are
`DKTK_001` through `DKTK_195` in order, and the cohort size and numpy seed
are the hard-coded constants 195 and 42 — not inputs of the function. -/
theorem cohort_ids_and_constants :
    ∀ (s : RandomSource),
      (create_structured_dataset s).length = 195 ∧
      n_patients = 195 ∧ numpy_seed = 42 ∧
      (create_structured_dataset s).map Patient.patient_ID =
        (List.range 195).map (fun i => "DKTK_" ++ format03d (i + 1)) ∧
      format03d 1 = "001" ∧ format03d 195 = "195" := by
  intro s
  refine ⟨by simp [create_structured_dataset, n_patients], rfl, rfl, ?_, by decide, by decide⟩
  rfl

end MedicalData
